import Mathlib

/-!
Verification of the `fix_systemtime.py` codemod engine (Aura repository).

The script scans a tree of Rust source files for `SystemTime::now()` call
sites, classifies each occurrence by textual context, injects a canonical
helper module, and rewrites occurrences per category.  We embed the string
and regular-expression manipulation of the script shallowly over `List Char`
and prove the spec's claims about classification, rewriting, idempotency and
the command-line contract.  Python regular expressions used by the script are
compiled by hand into deterministic matchers; for every pattern appearing in
the source the character classes on either side of a greedy repetition are
disjoint, so maximal-munch matching coincides with Python's backtracking
semantics.  Character classes are modelled over ASCII, matching the inputs
the script manipulates.
-/

namespace FixSystemtime

/-- Character lists standing for Python strings. -/
abbrev Chars := List Char

/-- ASCII version of the Python regex class `\w`. -/
def isWordChar (c : Char) : Bool := c.isAlphanum || c = '_'

/-- ASCII version of the Python regex class `\s` (also used by `str.strip`). -/
def isSpaceChar (c : Char) : Bool :=
  c = ' ' || c = '\t' || c = '\n' || c = '\r' || c = '\x0b' || c = '\x0c'

/-- Does `pre` occur at the very start of `s`? -/
def isPre : Chars → Chars → Bool
  | [], _ => true
  | _ :: _, [] => false
  | a :: as, b :: bs => a == b && isPre as bs

/-- Python `list[i]` as an optional lookup (an out-of-range index raises,
which the script catches). -/
def getAt? : List α → Nat → Option α
  | [], _ => none
  | a :: _, 0 => some a
  | _ :: as, n + 1 => getAt? as n

/-- Python `list[i] = x` (identity when out of range). -/
def setAt : List α → Nat → α → List α
  | [], _, _ => []
  | _ :: as, 0, x => x :: as
  | a :: as, n + 1, x => a :: setAt as n x

/-- Python `list.insert(i, x)`, which clamps an index past the end. -/
def insertAt (n : Nat) (x : α) : List α → List α
  | [] => [x]
  | a :: as =>
    match n with
    | 0 => x :: a :: as
    | m + 1 => a :: insertAt m x as

/-- Python's `needle in hay` substring test. -/
def containsSub (needle : Chars) : Chars → Bool
  | [] => needle.isEmpty
  | c :: cs => isPre needle (c :: cs) || containsSub needle cs

/-- Python's `hay.rfind(needle)`: index of the last occurrence, if any. -/
def rfindSub (needle hay : Chars) : Option Nat :=
  (List.range (hay.length + 1)).foldl
    (fun acc i => if isPre needle (hay.drop i) then some i else acc) none

/-- Python's `hay.find(c, start)`: index of the first occurrence of the
character `c` at or after index `start`, if any. -/
def findCharFrom (c : Char) (start : Nat) (hay : Chars) : Option Nat :=
  (List.range hay.length).foldl
    (fun acc i =>
      match acc with
      | some j => some j
      | none => if start ≤ i && getAt? hay i == some c then some i else none)
    none

/-- Fuelled worker for `countSub`; the fuel bounds the number of scan steps,
each of which consumes at least one character. -/
def countSubFuel (needle : Chars) : Nat → Chars → Nat
  | 0, _ => 0
  | _, [] => 0
  | f + 1, c :: cs =>
    if isPre needle (c :: cs) then
      1 + countSubFuel needle f ((c :: cs).drop needle.length)
    else
      countSubFuel needle f cs

/-- Count of non-overlapping occurrences of a nonempty `needle`, scanning left
to right (Python `hay.count(needle)`). -/
def countSub (needle hay : Chars) : Nat := countSubFuel needle hay.length hay

/-- Python's `line.strip()` over ASCII whitespace. -/
def stripChars (s : Chars) : Chars :=
  ((s.dropWhile isSpaceChar).reverse.dropWhile isSpaceChar).reverse

/-- Count of leading characters satisfying `p` (Python
`len(s) - len(s.lstrip())`). -/
def countLeading (p : Char → Bool) (s : Chars) : Nat := (s.takeWhile p).length

/-- A run of `n` spaces (Python `' ' * n`). -/
def spaces (n : Nat) : Chars := List.replicate n ' '

/-- Python `readlines`: split after each newline, keeping the newline; a final
fragment without a newline is kept, and an empty string gives no lines. -/
def slk (cur : Chars) : Chars → List Chars
  | [] => if cur.isEmpty then [] else [cur.reverse]
  | c :: cs => if c = '\n' then (cur.reverse ++ ['\n']) :: slk [] cs else slk (c :: cur) cs

/-- Split a file's content into its `readlines` lines. -/
def splitLinesKeep (s : Chars) : List Chars := slk [] s

/-- Concatenate lines back into file content (Python `writelines`). -/
def joinAll (ls : List Chars) : Chars := ls.foldr (· ++ ·) []

/-! Hand-compiled deterministic matchers for the regular expressions of the
script.  A matcher tries to match at the start of its input and returns the
matched text together with the remaining input. -/

/-- A matcher at a fixed position: matched text and remaining input. -/
def MatchFn := Chars → Option (Chars × Chars)

/-- Match a literal. -/
def mLit (lit : Chars) : MatchFn := fun s =>
  if isPre lit s then some (lit, s.drop lit.length) else none

/-- Sequencing of two matchers. -/
def mSeq (a b : MatchFn) : MatchFn := fun s =>
  match a s with
  | none => none
  | some (m1, r1) =>
    match b r1 with
    | none => none
    | some (m2, r2) => some (m1 ++ m2, r2)

/-- Greedy optional matcher (regex `x?`): prefer the match, else match empty. -/
def mOpt (a : MatchFn) : MatchFn := fun s =>
  match a s with
  | none => some ([], s)
  | some x => some x

/-- Greedy `cls+` for a character class. -/
def mPlusCls (p : Char → Bool) : MatchFn := fun s =>
  let m := s.takeWhile p
  if m.isEmpty then none else some (m, s.drop m.length)

/-- Greedy `cls*` for a character class. -/
def mStarCls (p : Char → Bool) : MatchFn := fun s =>
  let m := s.takeWhile p
  some (m, s.drop m.length)

/-- Fuelled greedy repetition: keep matching `a` while it consumes input. -/
def mRepFuel (a : MatchFn) : Nat → Chars → Chars × Chars
  | 0, s => ([], s)
  | f + 1, s =>
    match a s with
    | none => ([], s)
    | some (m, r) =>
      if m.isEmpty then ([], s)
      else
        let (m2, r2) := mRepFuel a f r
        (m ++ m2, r2)

/-- Greedy `x+` built from a fuelled repetition. -/
def mPlusFuel (a : MatchFn) (f : Nat) : MatchFn := fun s =>
  match a s with
  | none => none
  | some (m, r) =>
    if m.isEmpty then none
    else
      let (m2, r2) := mRepFuel a f r
      some (m ++ m2, r2)

/-- Does `f` hold at some suffix position of the input? -/
def anyPos (f : Chars → Bool) : Chars → Bool
  | [] => f []
  | c :: cs => f (c :: cs) || anyPos f cs

/-- Python `re.search` as a Boolean: does the matcher fire at some position? -/
def searchFrom (m : MatchFn) (s : Chars) : Bool := anyPos (fun t => (m t).isSome) s

/-- Fuelled worker for `subAll`; each step consumes at least one character. -/
def subAllFuel (m : MatchFn) (repl : Chars) : Nat → Chars → Chars
  | 0, s => s
  | _, [] => []
  | f + 1, c :: cs =>
    match m (c :: cs) with
    | some (mt, r) =>
      if mt.isEmpty then c :: subAllFuel m repl f cs
      else repl ++ subAllFuel m repl f r
    | none => c :: subAllFuel m repl f cs

/-- Python `re.sub(pattern, repl, s)` for a pattern that never matches the
empty string: replace every non-overlapping match, scanning left to right. -/
def subAll (m : MatchFn) (repl s : Chars) : Chars := subAllFuel m repl s.length s

/-- Python `re.sub(pattern, r'\1' + ins, s, count=1)`: find the leftmost match
and append `ins` to it, leaving the rest of the input untouched. -/
def subFirstWith (m : MatchFn) (ins : Chars) : Chars → Chars
  | [] => []
  | c :: cs =>
    match m (c :: cs) with
    | some (mt, r) =>
      if mt.isEmpty then c :: subFirstWith m ins cs
      else mt ++ ins ++ r
    | none => c :: subFirstWith m ins cs

/-- Does `lit` occur in the input before any newline (regex `.*lit`, where the
dot does not match a newline)? -/
def dotStarFind (lit : Chars) : Chars → Bool
  | [] => isPre lit []
  | c :: cs => isPre lit (c :: cs) || (c != '\n' && dotStarFind lit cs)

/-! Fixed strings of the script. -/

/-- The disallowed call expression. -/
def tokNow : Chars := ("SystemTime::now()").data

/-- The optional fully qualified prefix. -/
def tokStd : Chars := ("std::time::").data

/-- The duration-since-epoch conversion token. -/
def tokDurSince : Chars := ("duration_since").data

/-- The epoch-constant token. -/
def tokEpoch : Chars := ("UNIX_EPOCH").data

/-- Matcher for the occurrence pattern `(std::time::)?SystemTime::now\(\)`. -/
def mOccur : MatchFn := mSeq (mOpt (mLit tokStd)) (mLit tokNow)

/-- Matcher for `let\s+\w+\s*=`, the head of the direct-assignment regex. -/
def mLetHead : MatchFn :=
  mSeq (mLit (("let").data))
    (mSeq (mPlusCls isSpaceChar)
      (mSeq (mPlusCls isWordChar)
        (mSeq (mStarCls isSpaceChar) (mLit (("=").data)))))

/-- Match of `let\s+\w+\s*=.*lit` at the current position. -/
def daMatchAt (lit : Chars) (s : Chars) : Bool :=
  match mLetHead s with
  | none => false
  | some (_, r) => dotStarFind lit r

/-- Search for `let\s+\w+\s*=.*lit` anywhere in the line. -/
def daSearch (lit : Chars) (s : Chars) : Bool := anyPos (daMatchAt lit) s

/-- Common head of the three conversion-chain regexes. -/
def tokChainPre : Chars := ("SystemTime::now().duration_since(").data

/-- Matcher for `SystemTime::now\(\)\.duration_since\((?:std::time::)?UNIX_EPOCH\)\?\.as_millis\(\) as u64`. -/
def mMillisQ : MatchFn :=
  mSeq (mLit tokChainPre)
    (mSeq (mOpt (mLit tokStd)) (mLit (("UNIX_EPOCH)?.as_millis() as u64").data)))

/-- Matcher for `SystemTime::now\(\)\.duration_since\((?:std::time::)?UNIX_EPOCH\)\?\.as_secs\(\)`. -/
def mSecsQ : MatchFn :=
  mSeq (mLit tokChainPre)
    (mSeq (mOpt (mLit tokStd)) (mLit (("UNIX_EPOCH)?.as_secs()").data)))

/-- Matcher for `SystemTime::now\(\)\.duration_since\((?:std::time::)?UNIX_EPOCH\)\.unwrap\(\)\.as_millis\(\)`. -/
def mUnwrapMillis : MatchFn :=
  mSeq (mLit tokChainPre)
    (mSeq (mOpt (mLit tokStd)) (mLit (("UNIX_EPOCH).unwrap().as_millis()").data)))

/-- Replacement for the millisecond chains. -/
def replMillis : Chars := ("current_unix_timestamp() * 1000").data

/-- Replacement for the second chain. -/
def replSecs : Chars := ("current_unix_timestamp()").data

/-- Struct-field pattern without a namespace option (only `created_at`):
`f:\s*SystemTime::now\(\),?`. -/
def mFieldPlain (f : Chars) : MatchFn :=
  mSeq (mLit f)
    (mSeq (mStarCls isSpaceChar) (mSeq (mLit tokNow) (mOpt (mLit ([','])))))

/-- Struct-field pattern with the namespace option:
`f:\s*(?:std::time::)?SystemTime::now\(\),?`. -/
def mFieldNs (f : Chars) : MatchFn :=
  mSeq (mLit f)
    (mSeq (mStarCls isSpaceChar)
      (mSeq (mOpt (mLit tokStd)) (mSeq (mLit tokNow) (mOpt (mLit ([',']))))))

/-- The ordered pattern/replacement table of `fix_struct_fields`. -/
def structFixList : List (MatchFn × Chars) :=
  [(mFieldPlain (("created_at:").data), ("created_at: current_timestamp,").data),
   (mFieldNs (("timestamp:").data), ("timestamp: current_timestamp,").data),
   (mFieldNs (("last_activity:").data), ("last_activity: current_timestamp,").data),
   (mFieldNs (("started_at:").data), ("started_at: current_timestamp,").data),
   (mFieldNs (("generated_at:").data), ("generated_at: current_timestamp,").data),
   (mFieldNs (("recorded_at:").data), ("recorded_at: current_timestamp,").data),
   (mFieldNs (("exported_at:").data), ("exported_at: current_timestamp,").data),
   (mFieldNs (("executed_at:").data), ("executed_at: current_timestamp,").data),
   (mFieldNs (("connected_at:").data), ("connected_at: current_timestamp,").data)]

/-- Matcher for a single module-export declaration `pub mod \w+;`. -/
def mModUnit : MatchFn :=
  mSeq (mLit (("pub mod ").data)) (mSeq (mPlusCls isWordChar) (mLit ([';'])))

/-- Matcher for `pub mod \w+;\s*`. -/
def mModUnitWs : MatchFn := mSeq mModUnit (mStarCls isSpaceChar)

/-- Matcher for the registration regex `(?:pub mod \w+;\s*)+`. -/
def mModRun : MatchFn := fun s => mPlusFuel mModUnitWs (s.length + 1) s

/-! Data model of the engine. -/

/-- An Occurrence: file path, 1-based line number, stripped line text. -/
structure Occ where
  path : String
  lineNum : Nat
  text : Chars
deriving DecidableEq

/-- The closed enumeration of usage categories. -/
inductive Category where
  | timestampConversion
  | directAssignment
  | structField
  | functionCall
  | other
deriving DecidableEq

/-- The category buckets produced by the classifier. -/
structure Cats where
  tsc : List Occ
  da : List Occ
  sf : List Occ
  fc : List Occ
  oth : List Occ
deriving DecidableEq

/-- One file write performed by the engine: path, previous content (if the
file existed) and the written content. -/
structure WriteEv where
  path : String
  old : Option Chars
  new : Chars
deriving DecidableEq

/-- The file tree, as an association list from paths to contents. -/
abbrev FileSys := List (String × Chars)

/-- Result of an engine phase: updated tree, writes in order, fix records. -/
structure RunOut where
  fs : FileSys
  trace : List WriteEv
  fixes : List String
deriving DecidableEq

/-- Read a file from the tree. -/
def fsRead : FileSys → String → Option Chars
  | [], _ => none
  | (q, c) :: rest, p => if q = p then some c else fsRead rest p

/-- Write a file into the tree, creating it at the end when absent. -/
def fsUpdate (p : String) (c : Chars) : FileSys → FileSys
  | [] => [(p, c)]
  | (q, d) :: rest => if q = p then (p, c) :: rest else (q, d) :: fsUpdate p c rest

/-- Suffix test for the `*.rs` extension filter. -/
def endsWithL (suf s : Chars) : Bool := isPre suf.reverse s.reverse

/-- Occurrences of the disallowed call in the numbered lines of one file
(`find_systemtime_usage`, inner loop). -/
def occLines (p : String) : List Chars → Nat → List Occ
  | [], _ => []
  | l :: ls, i =>
    if searchFrom mOccur l then ⟨p, i, stripChars l⟩ :: occLines p ls (i + 1)
    else occLines p ls (i + 1)

/-- `find_systemtime_usage`: all occurrences across the `*.rs` files of the
tree, in traversal order. -/
def findUsage : FileSys → List Occ
  | [] => []
  | (p, c) :: rest =>
    if endsWithL ((".rs").data) p.data then
      occLines p (splitLinesKeep c) 1 ++ findUsage rest
    else findUsage rest

/-- Condition 1 of the classifier: both conversion tokens on the line. -/
def condTsLine (l : Chars) : Bool := containsSub tokDurSince l && containsSub tokEpoch l

/-- Condition 2 of the classifier: the `let`-binding regex fires. -/
def condDaLine (l : Chars) : Bool := daSearch (("SystemTime::now").data) l

/-- Condition 3 of the classifier: a colon plus the disallowed call. -/
def condSfLine (l : Chars) : Bool := containsSub ([':']) l && containsSub tokNow l

/-- Condition 4 of the classifier: an opening parenthesis plus the call. -/
def condFcLine (l : Chars) : Bool := containsSub (['(']) l && containsSub tokNow l

/-- `categorize_usage`, per line: first-match-wins over the five conditions. -/
def categorizeLine (l : Chars) : Category :=
  if condTsLine l then .timestampConversion
  else if condDaLine l then .directAssignment
  else if condSfLine l then .structField
  else if condFcLine l then .functionCall
  else .other

/-- Append one occurrence to the bucket chosen by its line text. -/
def Cats.add (cs : Cats) (o : Occ) : Cats :=
  match categorizeLine o.text with
  | .timestampConversion => ⟨cs.tsc ++ [o], cs.da, cs.sf, cs.fc, cs.oth⟩
  | .directAssignment => ⟨cs.tsc, cs.da ++ [o], cs.sf, cs.fc, cs.oth⟩
  | .structField => ⟨cs.tsc, cs.da, cs.sf ++ [o], cs.fc, cs.oth⟩
  | .functionCall => ⟨cs.tsc, cs.da, cs.sf, cs.fc ++ [o], cs.oth⟩
  | .other => ⟨cs.tsc, cs.da, cs.sf, cs.fc, cs.oth ++ [o]⟩

/-- `categorize_usage`: partition the occurrence list into the buckets. -/
def categorizeUsage (ms : List Occ) : Cats := ms.foldl Cats.add ⟨[], [], [], [], []⟩

/-- Bucket selector. -/
def Cats.bucket (cs : Cats) : Category → List Occ
  | .timestampConversion => cs.tsc
  | .directAssignment => cs.da
  | .structField => cs.sf
  | .functionCall => cs.fc
  | .other => cs.oth

/-- Basename of a path (Python `Path.name`). -/
def baseName (p : String) : String :=
  String.mk ((p.data.reverse.takeWhile (fun c => c != '/')).reverse)

/-! The timestamp-conversion rewriter (`fix_timestamp_conversions`). -/

/-- The local helper function template injected into entry-point files,
exactly as in the script (including the leading and the two trailing
newlines). -/
def helperFn : Chars :=
  ("\nfn current_unix_timestamp() -> u64 \x7b\n    // TODO: Replace with injected time source in production\n    #[allow(clippy::disallowed_methods)]\n    std::time::SystemTime::now()\n        .duration_since(std::time::UNIX_EPOCH)\n        .unwrap_or_default()\n        .as_secs()\n\x7d\n\n").data

/-- The declaration header whose presence suppresses helper injection. -/
def tokDecl : Chars := ("fn current_unix_timestamp() -> u64").data

/-- The import-introducing token used to locate the insertion point. -/
def tokUse : Chars := ("use ").data

/-- The entry-point tooling path marker. -/
def tokCli : Chars := ("cli").data

/-- Insert the helper after the newline that follows index `i` (Python
`content[:next_line] + '\n' + helper_function + content[next_line:]`, with
the `find == -1` slice behaviour when no newline follows). -/
def insertHelperAt (i : Nat) (content : Chars) : Chars :=
  match findCharFrom '\n' i content with
  | some j => content.take j ++ ('\n' :: helperFn) ++ content.drop j
  | none =>
    content.take (content.length - 1) ++ ('\n' :: helperFn) ++
      content.drop (content.length - 1)

/-- Whole-content transformation of `fix_timestamp_conversions` for one file:
helper injection (for entry-point files with an import anchor) followed by
the three chain substitutions, in the script's order. -/
def fixTsContent (path : String) (content : Chars) : Chars :=
  if containsSub tokCli path.data then
    let c1 :=
      if containsSub tokDecl content then content
      else
        match rfindSub tokUse content with
        | none => content
        | some i => insertHelperAt i content
    subAll mUnwrapMillis replMillis (subAll mSecsQ replSecs (subAll mMillisQ replMillis c1))
  else content

/-- `fix_timestamp_conversions`: process each occurrence's file, writing back
only when the computed content differs. -/
def fixTimestampConversions : List Occ → FileSys → RunOut
  | [], fs => ⟨fs, [], []⟩
  | o :: os, fs =>
    match fsRead fs o.path with
    | none => fixTimestampConversions os fs
    | some content =>
      let c2 := fixTsContent o.path content
      if c2 = content then fixTimestampConversions os fs
      else
        let r := fixTimestampConversions os (fsUpdate o.path c2 fs)
        ⟨r.fs, ⟨o.path, some content, c2⟩ :: r.trace,
          (("Timestamp conversions in ") ++ baseName o.path) :: r.fixes⟩

/-! The struct-field rewriter (`fix_struct_fields`). -/

/-- Try the ordered pattern table on one line; on the first pattern that
fires, replace all of its matches on that line. -/
def applyStructFixFrom : List (MatchFn × Chars) → Chars → Option Chars
  | [], _ => none
  | (m, repl) :: rest, line =>
    if searchFrom m line then some (subAll m repl line) else applyStructFixFrom rest line

/-- The per-line body of `fix_struct_fields`. -/
def applyStructFix (line : Chars) : Option Chars := applyStructFixFrom structFixList line

/-- The per-occurrence body of `fix_struct_fields` on the line list: rewrite
the matched 1-based line, if it exists and a pattern fires. -/
def structLinesFix (lines : List Chars) (n : Nat) : Option (List Chars) :=
  match getAt? lines (n - 1) with
  | none => none
  | some orig =>
    match applyStructFix orig with
    | some nl => some (setAt lines (n - 1) nl)
    | none => none

/-- `fix_struct_fields`: rewrite the matched line of each occurrence's file. -/
def fixStructFields : List Occ → FileSys → RunOut
  | [], fs => ⟨fs, [], []⟩
  | o :: os, fs =>
    match fsRead fs o.path with
    | none => fixStructFields os fs
    | some content =>
      match structLinesFix (splitLinesKeep content) o.lineNum with
      | none => fixStructFields os fs
      | some newLines =>
        let nc := joinAll newLines
        let r := fixStructFields os (fsUpdate o.path nc fs)
        ⟨r.fs, ⟨o.path, some content, nc⟩ :: r.trace,
          (("Struct field in ") ++ baseName o.path ++ (":") ++ toString o.lineNum) :: r.fixes⟩

/-! The direct-assignment rewriter (`fix_direct_assignments`). -/

/-- The suppression line inserted above direct assignments. -/
def allowAttrLine : Chars := ("#[allow(clippy::disallowed_methods)]\n").data

/-- The test-path marker. -/
def tokTest : Chars := ("test").data

/-- The utility-path marker. -/
def tokUtilsMark : Chars := ("utils").data

/-- `fix_direct_assignments`: for matching lines in test or utility files,
insert the suppression line above, with the original line's indentation. -/
def fixDirectAssignments : List Occ → FileSys → RunOut
  | [], fs => ⟨fs, [], []⟩
  | o :: os, fs =>
    match fsRead fs o.path with
    | none => fixDirectAssignments os fs
    | some content =>
      let lines := splitLinesKeep content
      match getAt? lines (o.lineNum - 1) with
      | none => fixDirectAssignments os fs
      | some orig =>
        if daSearch tokNow orig then
          if containsSub tokTest o.path.data || containsSub tokUtilsMark o.path.data then
            let ind := countLeading isSpaceChar orig
            let nc := joinAll (insertAt (o.lineNum - 1) (spaces ind ++ allowAttrLine) lines)
            let r := fixDirectAssignments os (fsUpdate o.path nc fs)
            ⟨r.fs, ⟨o.path, some content, nc⟩ :: r.trace,
              (("Added allow attribute in ") ++ baseName o.path ++ (":") ++ toString o.lineNum) :: r.fixes⟩
          else fixDirectAssignments os fs
        else fixDirectAssignments os fs

/-! The helper injector (`create_time_helper_functions`). -/

/-- The canonical helper module template, exactly as in the script
(including the trailing spaces inside the doc comments). -/
def utilsTemplate : Chars :=
  ("//! Time utility functions for the Aura codebase\n//!\n//! This module provides centralized time functions that can be easily\n//! replaced with injectable time sources for testing and deterministic execution.\n\nuse std::time::\x7bSystemTime, UNIX_EPOCH\x7d;\n\n/// Get current Unix timestamp in seconds\n/// \n/// TODO: Replace with injected time source in production\npub fn current_unix_timestamp() -> u64 \x7b\n    #[allow(clippy::disallowed_methods)]\n    SystemTime::now()\n        .duration_since(UNIX_EPOCH)\n        .unwrap_or_default()\n        .as_secs()\n\x7d\n\n/// Get current Unix timestamp in milliseconds\n/// \n/// TODO: Replace with injected time source in production  \npub fn current_unix_timestamp_millis() -> u64 \x7b\n    #[allow(clippy::disallowed_methods)]\n    SystemTime::now()\n        .duration_since(UNIX_EPOCH)\n        .unwrap_or_default()\n        .as_millis() as u64\n\x7d\n\n/// Get current SystemTime\n/// \n/// TODO: Replace with injected time source in production\npub fn current_system_time() -> SystemTime \x7b\n    #[allow(clippy::disallowed_methods)]\n    SystemTime::now()\n\x7d\n").data

/-- Path of the helper module file under the project root. -/
def utilsPath (root : String) : String := root ++ ("/crates/aura-types/src/time_utils.rs")

/-- Path of the top-level export file under the project root. -/
def libPath (root : String) : String := root ++ ("/crates/aura-types/src/lib.rs")

/-- The exact registration string whose presence is checked. -/
def tokReg : Chars := ("pub mod time_utils;").data

/-- The registration line that gets inserted. -/
def regLine : Chars := ("pub mod time_utils;\n").data

/-- `create_time_helper_functions`: write the helper module unconditionally,
then register it in the export file when that file exists and the
registration string is absent. -/
def createTimeHelpers (root : String) (fs : FileSys) : RunOut :=
  let up := utilsPath root
  let ev1 : WriteEv := ⟨up, fsRead fs up, utilsTemplate⟩
  let fs1 := fsUpdate up utilsTemplate fs
  match fsRead fs1 (libPath root) with
  | none => ⟨fs1, [ev1], [("Created time_utils module")]⟩
  | some libc =>
    if containsSub tokReg libc then ⟨fs1, [ev1], [("Created time_utils module")]⟩
    else
      let libc2 :=
        if searchFrom mModUnit libc then subFirstWith mModRun regLine libc
        else regLine ++ libc
      ⟨fsUpdate (libPath root) libc2 fs1,
        [ev1, ⟨libPath root, some libc, libc2⟩], [("Created time_utils module")]⟩

/-! The engine driver (`run_fixes`) and the command-line entry point. -/

/-- `run_fixes`: find occurrences, return early when there are none, else run
the injector and then the three category rewriters, in order. -/
def runFixes (root : String) (fs0 : FileSys) : RunOut :=
  match findUsage fs0 with
  | [] => ⟨fs0, [], []⟩
  | m :: ms =>
    let cats := categorizeUsage (m :: ms)
    let r1 := createTimeHelpers root fs0
    let r2 := fixTimestampConversions cats.tsc r1.fs
    let r3 := fixStructFields cats.sf r2.fs
    let r4 := fixDirectAssignments cats.da r3.fs
    ⟨r4.fs, r1.trace ++ r2.trace ++ r3.trace ++ r4.trace,
      r1.fixes ++ r2.fixes ++ r3.fixes ++ r4.fixes⟩

/-- Observable outcome of the process entry point. -/
structure MainOut where
  exitCode : Nat
  fs : FileSys
  trace : List WriteEv
  msgs : List String
deriving DecidableEq

/-- The usage message printed on a wrong argument count. -/
def usageMsg : String := "Usage: python3 fix_systemtime.py <project_root>"

/-- The error message printed when the root does not exist. -/
def errMsg (p : String) : String :=
  ("Error: Project root \x27") ++ p ++ ("\x27 does not exist")

/-- `main`: argument-count check, root-existence check, then `run_fixes`.
`argv` is the full Python `sys.argv` including the script name; root
existence is the external `os.path.exists` check. -/
def mainEntry (argv : List String) (rootExists : Bool) (fs : FileSys) : MainOut :=
  if argv.length ≠ 2 then ⟨1, fs, [], [usageMsg]⟩
  else
    let root := List.getD argv 1 ("")
    if !rootExists then ⟨1, fs, [], [errMsg root]⟩
    else
      let r := runFixes root fs
      ⟨0, r.fs, r.trace, []⟩

/-! Shared lemmas about the embedding. -/

/-- The empty bucket record has empty buckets. -/
theorem bucket_empty (c : Category) : Cats.bucket ⟨[], [], [], [], []⟩ c = [] := by
  cases c <;> rfl

/-- Membership in a bucket after adding one occurrence. -/
theorem mem_bucket_add (cs : Cats) (o m : Occ) (c : Category) :
    m ∈ (cs.add o).bucket c ↔ m ∈ cs.bucket c ∨ (m = o ∧ categorizeLine o.text = c) := by
  cases h : categorizeLine o.text <;> cases c <;>
    simp [Cats.add, Cats.bucket, h]

/-- Membership in a bucket after folding a list of occurrences. -/
theorem mem_bucket_foldl (ms : List Occ) (init : Cats) (m : Occ) (c : Category) :
    m ∈ (ms.foldl Cats.add init).bucket c ↔
      m ∈ init.bucket c ∨ (m ∈ ms ∧ categorizeLine m.text = c) := by
  induction ms generalizing init with
  | nil => simp
  | cons o os ih =>
    rw [List.foldl_cons, ih, mem_bucket_add]
    constructor
    · rintro ((h | ⟨rfl, hc⟩) | ⟨hm, hc⟩)
      · exact Or.inl h
      · exact Or.inr ⟨List.mem_cons_self _ _, hc⟩
      · exact Or.inr ⟨List.mem_cons_of_mem _ hm, hc⟩
    · rintro (h | ⟨hm, hc⟩)
      · exact Or.inl (Or.inl h)
      · rcases List.mem_cons.mp hm with rfl | hm2
        · exact Or.inl (Or.inr ⟨rfl, hc⟩)
        · exact Or.inr ⟨hm2, hc⟩

/-- Reading back a just-written file. -/
theorem fsRead_fsUpdate (p : String) (c : Chars) (fs : FileSys) :
    fsRead (fsUpdate p c fs) p = some c := by
  induction fs with
  | nil => simp [fsUpdate, fsRead]
  | cons qd rest ih =>
    obtain ⟨q, d⟩ := qd
    by_cases h : q = p <;> simp [fsUpdate, fsRead, h, ih]

/-- `setAt` leaves every other index unchanged. -/
theorem getAt?_setAt_ne {α : Type} (l : List α) (n : Nat) (x : α) (i : Nat) (h : i ≠ n) :
    getAt? (setAt l n x) i = getAt? l i := by
  induction l generalizing n i with
  | nil => simp [setAt]
  | cons a as ih =>
    cases n with
    | zero =>
      cases i with
      | zero => exact absurd rfl h
      | succ j => simp [setAt, getAt?]
    | succ m =>
      cases i with
      | zero => simp [setAt, getAt?]
      | succ j =>
        simp only [setAt, getAt?]
        exact ih m j (fun hh => h (by rw [hh]))

/-- If a needle is nowhere in the haystack, it is a prefix of no suffix. -/
theorem isPre_drop_of_containsSub_false (n h : Chars) (hh : containsSub n h = false) :
    ∀ i, isPre n (h.drop i) = false := by
  induction h with
  | nil =>
    intro i
    simp only [List.drop_nil]
    cases n with
    | nil => simp [containsSub] at hh
    | cons a as => rfl
  | cons c cs ih =>
    intro i
    rw [containsSub, Bool.or_eq_false_iff] at hh
    cases i with
    | zero => exact hh.1
    | succ j => simpa using ih hh.2 j

/-- The `rfind` fold stays `none` when no position matches. -/
theorem rfind_fold_none (n h : Chars) (l : List Nat)
    (hall : ∀ i, isPre n (h.drop i) = false) :
    l.foldl (fun acc i => if isPre n (h.drop i) then some i else acc) none = none := by
  induction l with
  | nil => rfl
  | cons a as ih => simpa [hall a] using ih

/-- A substring-free haystack has no `rfind` hit. -/
theorem rfindSub_eq_none (n h : Chars) (hh : containsSub n h = false) :
    rfindSub n h = none :=
  rfind_fold_none n h _ (isPre_drop_of_containsSub_false n h hh)

/-- The injector's write trace always starts with the helper-module write. -/
theorem createTimeHelpers_trace_shape (root : String) (fs : FileSys) :
    ∃ rest, (createTimeHelpers root fs).trace =
      (⟨utilsPath root, fsRead fs (utilsPath root), utilsTemplate⟩ : WriteEv) :: rest := by
  simp only [createTimeHelpers]
  split
  · exact ⟨[], rfl⟩
  · split
    · exact ⟨[], rfl⟩
    · exact ⟨[_], rfl⟩

/-! Concrete trees and lines used to instantiate the claims. -/

/-- A test-tree file with a direct assignment. -/
def cLet : Chars := ("    let now = SystemTime::now();\n").data

/-- The suppression line at that indentation. -/
def cAllow : Chars := ("    #[allow(clippy::disallowed_methods)]\n").data

/-- A one-file tree under a `tests/` path. -/
def exA : FileSys := [(("r/tests/a.rs"), cLet)]

/-- A tree with source files but no occurrence of the disallowed call. -/
def exNoOcc : FileSys := [(("r/src/a.rs"), ("fn main() \x7b\x7d\n").data)]

/-- An already-fixed tree: one unfixable occurrence, the helper module in
place, and the registration line present. -/
def exC3 : FileSys :=
  [(("r/src/app.rs"), ("foo: SystemTime::now()\n").data),
   (utilsPath ("r"), utilsTemplate),
   (libPath ("r"), regLine)]

/-- Path of the single file of the struct-field trees. -/
def sfPath : String := "r/src/m.rs"

/-- One-file tree for the struct-field rewriter. -/
def sfTree (c : Chars) : FileSys := [(sfPath, c)]

/-- The engine fragment that feeds the struct-field rewriter: match, classify,
rewrite the STRUCT_FIELD bucket. -/
def structPass (fs : FileSys) : FileSys :=
  (fixStructFields (categorizeUsage (findUsage fs)).sf fs).fs

/-- An unqualified struct-field initializer line for field `f`. -/
def sfPlainLine (f : String) : Chars := (f ++ (": SystemTime::now(),\n")).data

/-- A namespaced struct-field initializer line for field `f`. -/
def sfNsLine (f : String) : Chars := (f ++ (": std::time::SystemTime::now(),\n")).data

/-- The rewritten struct-field line for field `f`. -/
def sfDoneLine (f : String) : Chars := (f ++ (": current_timestamp,\n")).data

/-- Path of the entry-point tooling file with an import anchor. -/
def cliPath : String := "r/src/cli/cmd.rs"

/-- An entry-point file with one import line and two conversion call sites. -/
def c5In : Chars :=
  ("use std::time::\x7bSystemTime, UNIX_EPOCH\x7d;\n\nfn a() -> u64 \x7b\n    SystemTime::now().duration_since(UNIX_EPOCH)?.as_secs()\n\x7d\nfn b() -> u64 \x7b\n    SystemTime::now().duration_since(UNIX_EPOCH).unwrap().as_millis()\n\x7d\n").data

/-- The corresponding one-file tree. -/
def exC5 : FileSys := [(cliPath, c5In)]

/-- The rewritten content: helper injected after the import line, both call
sites replaced, the millisecond one scaled by 1000. -/
def c5Out : Chars :=
  (("use std::time::\x7bSystemTime, UNIX_EPOCH\x7d;").data) ++ ('\n' :: helperFn) ++
    (("\n\nfn a() -> u64 \x7b\n    current_unix_timestamp()\n\x7d\nfn b() -> u64 \x7b\n    current_unix_timestamp() * 1000\n\x7d\n").data)

/-- Path of the entry-point tooling file without an import anchor. -/
def cliBPath : String := "r/cli/a.rs"

/-- An entry-point file with a conversion call site and no `use ` token. -/
def c5bIn : Chars :=
  ("fn a() -> u64 \x7b\n    SystemTime::now().duration_since(UNIX_EPOCH)?.as_secs()\n\x7d\n").data

/-- The corresponding one-file tree. -/
def exC5b : FileSys := [(cliBPath, c5bIn)]

/-- Its rewritten content: call site replaced, no helper injected. -/
def c5bOut : Chars := ("fn a() -> u64 \x7b\n    current_unix_timestamp()\n\x7d\n").data

/-- An export file whose module-export lines form two separated blocks. -/
def libSplit : Chars := ("pub mod a;\n\nuse x;\n\npub mod b;\n").data

/-- A tree holding only that export file. -/
def exC6 : FileSys := [(libPath ("r"), libSplit)]

/-- What the injector actually produces on `libSplit`: the registration sits
after the first block of module-export lines, before `use x;`. -/
def libSplitActual : Chars :=
  ("pub mod a;\n\npub mod time_utils;\nuse x;\n\npub mod b;\n").data

/-- What insertion after the last module-export line would produce. -/
def libSplitClaimed : Chars :=
  ("pub mod a;\n\nuse x;\n\npub mod b;\npub mod time_utils;\n").data

/-- A line carrying both conversion tokens and a colon. -/
def tsColonLine : Chars :=
  ("ts: SystemTime::now().duration_since(UNIX_EPOCH).as_secs(),").data

/-- Path of the anchor-free entry-point file of C10's witness. -/
def c10Path : String := "r/cli/b.rs"

/-- Content with a conversion chain and no `use ` token. -/
def c10In : Chars :=
  ("fn f() -> u64 \x7b SystemTime::now().duration_since(std::time::UNIX_EPOCH)?.as_secs() \x7d\n").data

/-- Its rewrite: the chain replaced, nothing injected. -/
def c10Out : Chars := ("fn f() -> u64 \x7b current_unix_timestamp() \x7d\n").data

/-! Claim C1. -/

/-- C1: the classifier is total and exclusive — an occurrence of the scan
lands in the bucket of category `c` exactly when `c` is the category computed
from its line — and the five conditions are applied first-match-wins in the
order TIMESTAMP_CONVERSION, DIRECT_ASSIGNMENT, STRUCT_FIELD, FUNCTION_CALL,
OTHER; in particular every line containing both the duration-since token and
the epoch-constant token is classified TIMESTAMP_CONVERSION, whether or not
it also contains a colon. -/
theorem C1_classification_total_exclusive_precedence :
    (∀ ms m c, m ∈ (categorizeUsage ms).bucket c ↔ m ∈ ms ∧ categorizeLine m.text = c)
    ∧ (∀ l, condTsLine l = true → categorizeLine l = Category.timestampConversion)
    ∧ (∀ l, condTsLine l = false → condDaLine l = true →
        categorizeLine l = Category.directAssignment)
    ∧ (∀ l, condTsLine l = false → condDaLine l = false → condSfLine l = true →
        categorizeLine l = Category.structField)
    ∧ (∀ l, condTsLine l = false → condDaLine l = false → condSfLine l = false →
        condFcLine l = true → categorizeLine l = Category.functionCall)
    ∧ (∀ l, condTsLine l = false → condDaLine l = false → condSfLine l = false →
        condFcLine l = false → categorizeLine l = Category.other) := by
  refine ⟨fun ms m c => ?_, fun l h1 => ?_, fun l h1 h2 => ?_, fun l h1 h2 h3 => ?_,
    fun l h1 h2 h3 h4 => ?_, fun l h1 h2 h3 h4 => ?_⟩
  · rw [categorizeUsage, mem_bucket_foldl, bucket_empty]
    simp
  · simp [categorizeLine, h1]
  · simp [categorizeLine, h1, h2]
  · simp [categorizeLine, h1, h2, h3]
  · simp [categorizeLine, h1, h2, h3, h4]
  · simp [categorizeLine, h1, h2, h3, h4]

/-- Witness for C1: a line with both conversion tokens and a colon goes to
the TIMESTAMP_CONVERSION bucket, not the STRUCT_FIELD one. -/
theorem C1_classification_total_exclusive_precedence_witness :
    condTsLine tsColonLine = true ∧ condSfLine tsColonLine = true ∧
    categorizeLine tsColonLine = Category.timestampConversion ∧
    (⟨("f.rs"), 1, tsColonLine⟩ : Occ) ∈
      (categorizeUsage [⟨("f.rs"), 1, tsColonLine⟩]).bucket Category.timestampConversion :=
  ⟨by decide, by decide,
   C1_classification_total_exclusive_precedence.2.1 tsColonLine (by decide),
   (C1_classification_total_exclusive_precedence.1 [⟨("f.rs"), 1, tsColonLine⟩]
       ⟨("f.rs"), 1, tsColonLine⟩ Category.timestampConversion).mpr
     ⟨List.mem_singleton.mpr rfl, by decide⟩⟩

/-! Claim C8. -/

/-- C8: scope containment — a successful struct-field rewrite changes no line
of the file other than the occurrence's 1-based line number, and the
timestamp-conversion transformation leaves the content of any file whose
path lacks the entry-point marker unchanged. -/
theorem C8_scope_containment :
    (∀ lines n res i, structLinesFix lines n = some res → i ≠ n - 1 →
        getAt? res i = getAt? lines i)
    ∧ (∀ (path : String) (content : Chars), containsSub tokCli path.data = false →
        fixTsContent path content = content) := by
  constructor
  · intro lines n res i hres hi
    unfold structLinesFix at hres
    split at hres
    · exact absurd hres (by simp)
    · split at hres
      · simp only [Option.some.injEq] at hres
        rw [← hres]
        exact getAt?_setAt_ne lines (n - 1) _ i hi
      · exact absurd hres (by simp)
  · intro path content h
    simp [fixTsContent, h]

/-- The line list of the C8 witness file. -/
def c8Lines : List Chars := [("fn s() \x7b\n").data, ("    timestamp: SystemTime::now(),\n").data]

/-- The rewritten line list: only line 2 changed. -/
def c8Res : List Chars := [("fn s() \x7b\n").data, ("    timestamp: current_timestamp,\n").data]

/-- Witness for C8 at a two-line file and a non-entry-point path. -/
theorem C8_scope_containment_witness :
    getAt? c8Res 0 = getAt? c8Lines 0 ∧ fixTsContent ("r/src/x.rs") cLet = cLet :=
  ⟨C8_scope_containment.1 c8Lines 2 c8Res 0 (by decide) (by decide),
   C8_scope_containment.2 ("r/src/x.rs") cLet (by decide)⟩

/-! Claim C9. -/

/-- C9: the command-line contract — any argument count other than one
positional argument exits 1 with the usage message and touches nothing; a
missing root exits 1 with the error message before any scanning; an existing
root exits 0; and a tree with no occurrences exits 0 with no writes and no
fix records. -/
theorem C9_cli_contract (argv : List String) (e : Bool) (fs : FileSys) :
    (argv.length ≠ 2 → mainEntry argv e fs = ⟨1, fs, [], [usageMsg]⟩)
    ∧ (argv.length = 2 → e = false →
        mainEntry argv e fs = ⟨1, fs, [], [errMsg (List.getD argv 1 (""))]⟩)
    ∧ (argv.length = 2 → e = true → (mainEntry argv e fs).exitCode = 0)
    ∧ (argv.length = 2 → e = true → findUsage fs = [] →
        mainEntry argv e fs = ⟨0, fs, [], []⟩) := by
  refine ⟨fun h => ?_, fun h he => ?_, fun h he => ?_, fun h he hf => ?_⟩
  · simp [mainEntry, h]
  · simp [mainEntry, h, he]
  · simp [mainEntry, h, he]
  · simp [mainEntry, h, he, runFixes, hf]

/-- Witness for C9: wrong arity, missing root, and the empty tree. -/
theorem C9_cli_contract_witness :
    mainEntry [("fix_systemtime.py")] true [] = ⟨1, [], [], [usageMsg]⟩ ∧
    mainEntry [("fix_systemtime.py"), ("missing")] false [] = ⟨1, [], [], [errMsg ("missing")]⟩ ∧
    mainEntry [("fix_systemtime.py"), ("r")] true [] = ⟨0, [], [], []⟩ :=
  ⟨(C9_cli_contract [("fix_systemtime.py")] true []).1 (by decide),
   (C9_cli_contract [("fix_systemtime.py"), ("missing")] false []).2.1 rfl rfl,
   (C9_cli_contract [("fix_systemtime.py"), ("r")] true []).2.2.2 rfl rfl rfl⟩

/-! Claim C10. -/

/-- C10: for an entry-point ('cli'-marked) file whose content has no
occurrence of the import token, the transformation is exactly the three
chain substitutions — call sites are rewritten to the helper call but no
helper declaration is inserted. -/
theorem C10_no_helper_without_import (path : String) (content : Chars)
    (hc : containsSub tokCli path.data = true)
    (hu : containsSub tokUse content = false) :
    fixTsContent path content =
      subAll mUnwrapMillis replMillis (subAll mSecsQ replSecs (subAll mMillisQ replMillis content)) := by
  have h1 : rfindSub tokUse content = none := rfindSub_eq_none _ _ hu
  by_cases hd : containsSub tokDecl content = true
  · simp [fixTsContent, hc, hd]
  · simp only [Bool.not_eq_true] at hd
    simp [fixTsContent, hc, hd, h1]

/-- Witness for C10 at a concrete anchor-free entry-point file. -/
theorem C10_no_helper_without_import_witness :
    fixTsContent c10Path c10In =
      subAll mUnwrapMillis replMillis (subAll mSecsQ replSecs (subAll mMillisQ replMillis c10In))
    ∧ fixTsContent c10Path c10In = c10Out
    ∧ countSub tokDecl (fixTsContent c10Path c10In) = 0 :=
  ⟨C10_no_helper_without_import c10Path c10In (by decide) (by decide), rfl, rfl⟩

/-! Claim C2. -/

/-- C2 counterexample: on the tests-path tree, the first engine run inserts
the suppression line above the assignment (indentation preserved), but the
second run inserts a second identical suppression line — the second run does
change the tree. -/
theorem C2_counterexample_second_run_duplicates :
    fsRead (runFixes ("r") exA).fs (("r/tests/a.rs")) = some (cAllow ++ cLet)
    ∧ fsRead (runFixes ("r") (runFixes ("r") exA).fs).fs (("r/tests/a.rs"))
        = some (cAllow ++ cAllow ++ cLet)
    ∧ cAllow ++ cLet ≠ cAllow ++ cAllow ++ cLet :=
  ⟨rfl, rfl, by decide⟩

/-- C2 amended: for a direct-assignment occurrence in a marker path, one pass
of the rewriter inserts the suppression line immediately above the matched
line with that line's own indentation — guarded only by the line regex and
the path markers, never by the content of neighbouring lines, so an already
present annotation is not detected and a repeated run inserts it again. -/
theorem C2_direct_assignment_insertion (o : Occ) (fs : FileSys) (content orig : Chars)
    (h1 : fsRead fs o.path = some content)
    (h2 : getAt? (splitLinesKeep content) (o.lineNum - 1) = some orig)
    (h3 : daSearch tokNow orig = true)
    (h4 : containsSub tokTest o.path.data = true) :
    fixDirectAssignments [o] fs =
      ⟨fsUpdate o.path
          (joinAll (insertAt (o.lineNum - 1)
            (spaces (countLeading isSpaceChar orig) ++ allowAttrLine) (splitLinesKeep content))) fs,
        [⟨o.path, some content,
          joinAll (insertAt (o.lineNum - 1)
            (spaces (countLeading isSpaceChar orig) ++ allowAttrLine) (splitLinesKeep content))⟩],
        [(("Added allow attribute in ") ++ baseName o.path ++ (":") ++ toString o.lineNum)]⟩ := by
  simp [fixDirectAssignments, h1, h2, h3, h4]

/-- Witness for C2's amended statement at the concrete tests-path tree. -/
theorem C2_direct_assignment_insertion_witness :
    fixDirectAssignments [⟨("r/tests/a.rs"), 1, stripChars cLet⟩] exA =
      ⟨fsUpdate ("r/tests/a.rs")
          (joinAll (insertAt (1 - 1) (spaces (countLeading isSpaceChar cLet) ++ allowAttrLine)
            (splitLinesKeep cLet))) exA,
        [⟨("r/tests/a.rs"), some cLet,
          joinAll (insertAt (1 - 1) (spaces (countLeading isSpaceChar cLet) ++ allowAttrLine)
            (splitLinesKeep cLet))⟩],
        [(("Added allow attribute in ") ++ baseName ("r/tests/a.rs") ++ (":") ++ toString (1 : Nat))]⟩ :=
  C2_direct_assignment_insertion ⟨("r/tests/a.rs"), 1, stripChars cLet⟩ exA cLet cLet
    rfl rfl (by decide) (by decide)

/-! Claim C3. -/

/-- C3 counterexample: a run over the already-fixed tree still performs a
file write — the helper module file is rewritten with byte-identical content
(the write event's old content equals its new content), while the rest of
the tree is untouched. -/
theorem C3_counterexample_unconditional_helper_write :
    (runFixes ("r") exC3).trace = [⟨utilsPath ("r"), some utilsTemplate, utilsTemplate⟩]
    ∧ (runFixes ("r") exC3).fs = exC3 :=
  ⟨rfl, rfl⟩

/-- C3 amended: every write of the timestamp-conversion rewriter changes the
file it writes; the export-file registration writes only when the exact
registration string is absent; but the helper-module file itself is written
unconditionally, first, on every injector run. -/
theorem C3_write_guards :
    (∀ os fs ev, ev ∈ (fixTimestampConversions os fs).trace → ev.old ≠ some ev.new)
    ∧ (∀ root fs libc,
        fsRead (fsUpdate (utilsPath root) utilsTemplate fs) (libPath root) = some libc →
        containsSub tokReg libc = true →
        (createTimeHelpers root fs).trace =
          [⟨utilsPath root, fsRead fs (utilsPath root), utilsTemplate⟩])
    ∧ (∀ root fs, ∃ rest, (createTimeHelpers root fs).trace =
        (⟨utilsPath root, fsRead fs (utilsPath root), utilsTemplate⟩ : WriteEv) :: rest) := by
  refine ⟨?_, ?_, fun root fs => createTimeHelpers_trace_shape root fs⟩
  · intro os
    induction os with
    | nil => intro fs ev h; simp [fixTimestampConversions] at h
    | cons o os ih =>
      intro fs ev h
      unfold fixTimestampConversions at h
      split at h
      · exact ih _ ev h
      · dsimp only at h
        split at h
        · exact ih _ ev h
        · rename_i content hne
          simp only [List.mem_cons] at h
          rcases h with rfl | h
          · intro hcontra
            simp only [Option.some.injEq] at hcontra
            exact hne hcontra.symm
          · exact ih _ ev h
  · intro root fs libc hl hr
    simp [createTimeHelpers, hl, hr]

/-- A tree holding only a registered export file. -/
def exLibOnly : FileSys := [(libPath ("r"), regLine)]

/-- Witness for C3's amended statement: a changing rewriter write, and the
injector trace on an already-registered export file. -/
theorem C3_write_guards_witness :
    some c5bIn ≠ some c5bOut
    ∧ (createTimeHelpers ("r") exLibOnly).trace = [⟨utilsPath ("r"), none, utilsTemplate⟩] :=
  ⟨C3_write_guards.1 [⟨cliBPath, 2, []⟩] exC5b ⟨cliBPath, some c5bIn, c5bOut⟩ (by decide),
   C3_write_guards.2.1 ("r") exLibOnly regLine rfl (by decide)⟩

/-! Claim C4. -/

/-- C4 counterexample: the namespaced `created_at` line is captured as a
STRUCT_FIELD occurrence, yet the struct-field pass leaves it unchanged
instead of rewriting it to `created_at: current_timestamp,` — the
`created_at` pattern of the table admits no namespace prefix. -/
theorem C4_counterexample_namespaced_created_at :
    (categorizeUsage (findUsage (sfTree (sfNsLine ("created_at"))))).sf
      = [⟨sfPath, 1, stripChars (sfNsLine ("created_at"))⟩]
    ∧ structPass (sfTree (sfNsLine ("created_at"))) = sfTree (sfNsLine ("created_at"))
    ∧ sfTree (sfNsLine ("created_at")) ≠ sfTree (sfDoneLine ("created_at")) :=
  ⟨rfl, rfl, by decide⟩

/-- C4 amended: the eight fields after `created_at` rewrite in both the
unqualified and the namespaced form; `created_at` rewrites only in the
unqualified form and its namespaced form is left unchanged; and every
rewritten file is a fixed point of the struct-field pass. -/
theorem C4_struct_field_rewrites :
    structPass (sfTree (sfPlainLine ("created_at"))) = sfTree (sfDoneLine ("created_at"))
    ∧ structPass (sfTree (sfNsLine ("created_at"))) = sfTree (sfNsLine ("created_at"))
    ∧ structPass (sfTree (sfPlainLine ("timestamp"))) = sfTree (sfDoneLine ("timestamp"))
    ∧ structPass (sfTree (sfNsLine ("timestamp"))) = sfTree (sfDoneLine ("timestamp"))
    ∧ structPass (sfTree (sfPlainLine ("last_activity"))) = sfTree (sfDoneLine ("last_activity"))
    ∧ structPass (sfTree (sfNsLine ("last_activity"))) = sfTree (sfDoneLine ("last_activity"))
    ∧ structPass (sfTree (sfPlainLine ("started_at"))) = sfTree (sfDoneLine ("started_at"))
    ∧ structPass (sfTree (sfNsLine ("started_at"))) = sfTree (sfDoneLine ("started_at"))
    ∧ structPass (sfTree (sfPlainLine ("generated_at"))) = sfTree (sfDoneLine ("generated_at"))
    ∧ structPass (sfTree (sfNsLine ("generated_at"))) = sfTree (sfDoneLine ("generated_at"))
    ∧ structPass (sfTree (sfPlainLine ("recorded_at"))) = sfTree (sfDoneLine ("recorded_at"))
    ∧ structPass (sfTree (sfNsLine ("recorded_at"))) = sfTree (sfDoneLine ("recorded_at"))
    ∧ structPass (sfTree (sfPlainLine ("exported_at"))) = sfTree (sfDoneLine ("exported_at"))
    ∧ structPass (sfTree (sfNsLine ("exported_at"))) = sfTree (sfDoneLine ("exported_at"))
    ∧ structPass (sfTree (sfPlainLine ("executed_at"))) = sfTree (sfDoneLine ("executed_at"))
    ∧ structPass (sfTree (sfNsLine ("executed_at"))) = sfTree (sfDoneLine ("executed_at"))
    ∧ structPass (sfTree (sfPlainLine ("connected_at"))) = sfTree (sfDoneLine ("connected_at"))
    ∧ structPass (sfTree (sfNsLine ("connected_at"))) = sfTree (sfDoneLine ("connected_at"))
    ∧ structPass (sfTree (sfDoneLine ("created_at"))) = sfTree (sfDoneLine ("created_at"))
    ∧ structPass (sfTree (sfDoneLine ("timestamp"))) = sfTree (sfDoneLine ("timestamp"))
    ∧ structPass (sfTree (sfDoneLine ("last_activity"))) = sfTree (sfDoneLine ("last_activity"))
    ∧ structPass (sfTree (sfDoneLine ("started_at"))) = sfTree (sfDoneLine ("started_at"))
    ∧ structPass (sfTree (sfDoneLine ("generated_at"))) = sfTree (sfDoneLine ("generated_at"))
    ∧ structPass (sfTree (sfDoneLine ("recorded_at"))) = sfTree (sfDoneLine ("recorded_at"))
    ∧ structPass (sfTree (sfDoneLine ("exported_at"))) = sfTree (sfDoneLine ("exported_at"))
    ∧ structPass (sfTree (sfDoneLine ("executed_at"))) = sfTree (sfDoneLine ("executed_at"))
    ∧ structPass (sfTree (sfDoneLine ("connected_at"))) = sfTree (sfDoneLine ("connected_at")) :=
  ⟨rfl, rfl, rfl, rfl, rfl, rfl, rfl, rfl, rfl, rfl, rfl, rfl, rfl, rfl,
   rfl, rfl, rfl, rfl, rfl, rfl, rfl, rfl, rfl, rfl, rfl, rfl, rfl⟩

/-! Claim C5. -/

/-- C5 counterexample: an entry-point file without a `use ` token gets its
conversion chain rewritten to the helper call, but the helper definition is
injected zero times, not exactly once. -/
theorem C5_counterexample_no_import_anchor :
    fsRead (runFixes ("r") exC5b).fs cliBPath = some c5bOut
    ∧ countSub tokDecl c5bOut = 0
    ∧ containsSub replSecs c5bOut = true :=
  ⟨rfl, rfl, rfl⟩

set_option maxRecDepth 100000 in
/-- C5 amended: on an entry-point file that has an import anchor, the
second-conversion chain becomes the helper call, the millisecond chain
becomes the helper call scaled by 1000, and — although the file contributes
two occurrences and is therefore processed twice — the helper definition
appears exactly once in the result. -/
theorem C5_conversion_rewrites_with_anchor :
    (categorizeUsage (findUsage exC5)).tsc.length = 2
    ∧ fsRead (runFixes ("r") exC5).fs cliPath = some c5Out
    ∧ countSub tokDecl c5Out = 1
    ∧ containsSub replMillis c5Out = true :=
  ⟨rfl, rfl, rfl, rfl⟩

/-! Claim C6. -/

/-- C6 counterexample: on an export file whose module-export lines form two
separated blocks, the registration is inserted after the first block —
before `use x;` and before the later `pub mod b;` — not after the last
module-export line. -/
theorem C6_counterexample_first_block_insertion :
    fsRead (createTimeHelpers ("r") exC6).fs (libPath ("r")) = some libSplitActual
    ∧ containsSub (("pub mod time_utils;\nuse x;").data) libSplitActual = true
    ∧ libSplitActual ≠ libSplitClaimed :=
  ⟨rfl, rfl, by decide⟩

/-- C6 amended: the registration is guarded by exact-string presence; with no
module-export line it is prepended at the top; and otherwise it is inserted
after the first contiguous run of module-export lines (shown on the
two-block file). -/
theorem C6_registration_guarded :
    (∀ root fs libc,
        fsRead (fsUpdate (utilsPath root) utilsTemplate fs) (libPath root) = some libc →
        containsSub tokReg libc = true →
        (createTimeHelpers root fs).fs = fsUpdate (utilsPath root) utilsTemplate fs)
    ∧ (∀ root fs libc,
        fsRead (fsUpdate (utilsPath root) utilsTemplate fs) (libPath root) = some libc →
        containsSub tokReg libc = false →
        searchFrom mModUnit libc = false →
        fsRead (createTimeHelpers root fs).fs (libPath root) = some (regLine ++ libc))
    ∧ fsRead (createTimeHelpers ("r") exC6).fs (libPath ("r"))
        = some (subFirstWith mModRun regLine libSplit)
    ∧ subFirstWith mModRun regLine libSplit = libSplitActual := by
  refine ⟨?_, ?_, rfl, rfl⟩
  · intro root fs libc hl hr
    simp [createTimeHelpers, hl, hr]
  · intro root fs libc hl hr hs
    simp [createTimeHelpers, hl, hr, hs, fsRead_fsUpdate]

/-- An export file without any module-export line. -/
def exLibNoMods : FileSys := [(libPath ("r"), ("fn x() \x7b\x7d\n").data)]

/-- Witness for C6's amended statement: the guarded case and the
no-module-line case. -/
theorem C6_registration_guarded_witness :
    (createTimeHelpers ("r") exLibOnly).fs = fsUpdate (utilsPath ("r")) utilsTemplate exLibOnly
    ∧ fsRead (createTimeHelpers ("r") exLibNoMods).fs (libPath ("r"))
        = some (regLine ++ (("fn x() \x7b\x7d\n").data)) :=
  ⟨C6_registration_guarded.1 ("r") exLibOnly regLine rfl (by decide),
   C6_registration_guarded.2.1 ("r") exLibNoMods (("fn x() \x7b\x7d\n").data) rfl
     (by decide) (by decide)⟩

/-! Claim C7. -/

/-- C7 counterexample: on a tree with no occurrence of the disallowed call
(including the empty tree), the engine returns before the injector — the
helper module file is not created, so the injector does not run on every
run. -/
theorem C7_counterexample_no_injector_without_matches :
    runFixes ("r") ([] : FileSys) = ⟨[], [], []⟩
    ∧ runFixes ("r") exNoOcc = ⟨exNoOcc, [], []⟩
    ∧ fsRead (runFixes ("r") exNoOcc).fs (utilsPath ("r")) = none :=
  ⟨rfl, rfl, rfl⟩

/-- The timestamp-conversion phase of a run, taken after the injector. -/
def tsPhase (root : String) (fs : FileSys) : RunOut :=
  fixTimestampConversions (categorizeUsage (findUsage fs)).tsc (createTimeHelpers root fs).fs

/-- The struct-field phase of a run. -/
def sfPhase (root : String) (fs : FileSys) : RunOut :=
  fixStructFields (categorizeUsage (findUsage fs)).sf (tsPhase root fs).fs

/-- The direct-assignment phase of a run. -/
def daPhase (root : String) (fs : FileSys) : RunOut :=
  fixDirectAssignments (categorizeUsage (findUsage fs)).da (sfPhase root fs).fs

/-- C7 amended: when the matcher finds no occurrence the run changes nothing
and the injector does not run; when it finds at least one, the injector runs
first — the run's first write is the helper-module write — and every
rewriter write comes after the whole injector trace. -/
theorem C7_injector_first_when_matches (root : String) (fs : FileSys) :
    (findUsage fs = [] → runFixes root fs = ⟨fs, [], []⟩)
    ∧ (findUsage fs ≠ [] →
        (runFixes root fs).trace.head? =
          some ⟨utilsPath root, fsRead fs (utilsPath root), utilsTemplate⟩)
    ∧ (findUsage fs ≠ [] →
        (runFixes root fs).trace =
          (createTimeHelpers root fs).trace ++
            ((tsPhase root fs).trace ++ ((sfPhase root fs).trace ++ (daPhase root fs).trace))) := by
  refine ⟨fun h => ?_, fun h => ?_, fun h => ?_⟩
  · simp [runFixes, h]
  · obtain ⟨rest, hres⟩ := createTimeHelpers_trace_shape root fs
    cases hms : findUsage fs with
    | nil => exact absurd hms h
    | cons m ms => simp [runFixes, hms, hres]
  · cases hms : findUsage fs with
    | nil => exact absurd hms h
    | cons m ms =>
      simp [runFixes, hms, tsPhase, sfPhase, daPhase, List.append_assoc]

/-- Witness for C7's amended statement at the no-occurrence tree and the
tests-path tree. -/
theorem C7_injector_first_when_matches_witness :
    runFixes ("r") exNoOcc = ⟨exNoOcc, [], []⟩
    ∧ (runFixes ("r") exA).trace.head? = some ⟨utilsPath ("r"), none, utilsTemplate⟩ :=
  ⟨(C7_injector_first_when_matches ("r") exNoOcc).1 rfl,
   (C7_injector_first_when_matches ("r") exA).2.1 (by decide)⟩

end FixSystemtime
